import Mathlib

/-!
Verification of the ClipCascade Linux clipboard monitor
(`ClipCascade_Desktop/src/clipboard/clipboard_monitor_linux.py`).

The file shallowly embeds the monitor's pure core: the MIME classifier,
the Wayland data-control selection handler, the polling loop body, the
GTK owner-change handler, the strategy-fallback runner and the module
lifecycle functions (`on_update`, `stop`, `enable_block_image_once`).
External effects (pipes, subprocesses, the display connection, timers)
are abstracted as explicit inputs: a `receive`/fetch environment giving
the bytes the outside world would return, and a `decode` function
modelling Python's `bytes.decode("utf-8")` (`none` marks invalid UTF-8,
i.e. a `UnicodeDecodeError`).
-/

namespace ClipCascade

/-- A delivered clipboard value.  Python keeps `previous_clipboard` as
`str | bytes | list | None`; distinct Python types never compare equal,
which matches constructor inequality here.  Bytes are modelled as
`List Nat`. -/
inductive ClipValue where
  | text (s : String)
  | image (bytes : List Nat)
  | files (fs : List String)
deriving DecidableEq

/-- One callback invocation `_callback_update(kind, value)`. -/
abbrev ClipEvent := String × ClipValue

/-- Uncaught Python exceptions that the embedded code can raise. -/
inductive PyExn where
  | unicodeDecodeError
  | indexError
deriving DecidableEq

/-- Python's `s.replace("\r\n", "\n").replace("\r", "\n")` on the
character list: a CRLF pair or a lone CR becomes a single LF. -/
def normalizeNewlines : List Char → List Char
  | [] => []
  | '\r' :: '\n' :: rest => '\n' :: normalizeNewlines rest
  | '\r' :: rest => '\n' :: normalizeNewlines rest
  | c :: rest => c :: normalizeNewlines rest

/-- Python's `s.split("\n")` on the character list. -/
def splitOnNl : List Char → List (List Char)
  | [] => [[]]
  | c :: rest =>
      match splitOnNl rest with
      | [] => [[]]
      | grp :: gs => if c = '\n' then [] :: grp :: gs else (c :: grp) :: gs

/-- Python's `str.strip()`: drop leading and trailing whitespace. -/
def pyStrip (cs : List Char) : List Char :=
  ((cs.dropWhile Char.isWhitespace).reverse.dropWhile Char.isWhitespace).reverse

/-- The repeated source idiom
`s.replace("\r\n","\n").replace("\r","\n").split("\n")` followed by
`[x.strip() for x in lines if len(x.strip()) > 0]`
(lines 294-295, 369-370, and 101-103 of the source). -/
def splitStripLines (s : String) : List String :=
  ((splitOnNl (normalizeNewlines s.toList)).map (fun g => String.mk (pyStrip g))).filter
    (fun m => m.length > 0)

/-- Python's `str.lower()` (ASCII case folding suffices for the
messages involved). -/
def pyLower (s : String) : String :=
  String.mk (s.toList.map Char.toLower)

/-- Python's `s.startswith(pre)` (kernel-reducible, unlike
`String.startsWith`). -/
def pyStartsWith (s pre : String) : Bool :=
  pre.toList.isPrefixOf s.toList

/-- `text_mime` allow-list from `convert_mime_to_generic_type`. -/
def text_mime : List String :=
  ["text/plain", "text/plain;charset=utf-8", "STRING", "TEXT", "COMPOUND_TEXT",
   "UTF8_STRING"]

/-- MIME classifier, source lines 388-406.  First match wins:
`text/uri-list` → files, any `image/` entry → image, any allow-listed
text alias → text, else unknown. -/
def convert_mime_to_generic_type (mime_list : List String) : String :=
  if "text/uri-list" ∈ mime_list then "files"
  else if mime_list.any (fun mime => pyStartsWith mime "image/") then "image"
  else if text_mime.any (fun t => t ∈ mime_list) then "text"
  else "unknown"

/-! ## Wayland data-control monitor (`_WaylandClipboardMonitor`) -/

/-- The mutable state `_handle_selection` reads and writes: the
monitor's own attributes (`enable_*_monitoring`, `current_offer`,
`previous_clipboard`) together with the two module globals it touches
(`_block_image_once` and whether `_callback_update` is set). -/
structure WlState where
  enableImageMonitoring : Bool
  enableFileMonitoring : Bool
  currentOffer : Option Nat
  previousClipboard : Option ClipValue
  blockImageOnce : Bool
  callbackRegistered : Bool
deriving DecidableEq

/-- Text payload selection, source lines 74-76: try
`text/plain;charset=utf-8`, and only when that returned `None` try
`text/plain`.  `receive mime` models `self._receive_data(offer, mime)`
(`none` = no data / receive failure). -/
def wlTextData (receive : String → Option (List Nat)) : Option (List Nat) :=
  (receive "text/plain;charset=utf-8").orElse (fun _ => receive "text/plain")

/-- Image payload selection, source lines 85-89: prefer the first
advertised MIME starting with `image/png`, else fall back to
`mime_types[0]`.  (The empty-list case is unreachable in
`_handle_selection`, where the image branch runs only when some entry
starts with `image/`; Python would raise `IndexError` there.) -/
def wlImageData (receive : String → Option (List Nat)) (mimeTypes : List String) :
    Option (List Nat) :=
  match mimeTypes.find? (fun m => pyStartsWith m "image/png") with
  | some pngMime => receive pngMime
  | none =>
      match mimeTypes.head? with
      | some m0 => receive m0
      | none => none

/-- `_WaylandClipboardMonitor._handle_selection`, source lines 56-107.
`decode` models `bytes.decode("utf-8")` (`none` = `UnicodeDecodeError`,
which the source does not catch, hence `Except.error`).  `offer` is the
newly announced offer handle (`none` models a `None` selection), and
`mimeTypes` is `self.current_offer_mime_types.copy()`.  Returns the new
state and the callback invocations made. -/
def handleSelection (decode : List Nat → Option String)
    (receive : String → Option (List Nat))
    (offer : Option Nat) (mimeTypes : List String) (st : WlState) :
    Except PyExn (WlState × List ClipEvent) :=
  let st := { st with currentOffer := offer }
  match offer with
  | none => .ok (st, [])
  | some _ =>
    let ty := convert_mime_to_generic_type mimeTypes
    if ty = "text" then
      match wlTextData receive with
      | some bs =>
        if bs = [] then .ok (st, [])
        else
          match decode bs with
          | none => .error .unicodeDecodeError
          | some t =>
            if t ≠ "" ∧ some (ClipValue.text t) ≠ st.previousClipboard then
              let st := { st with previousClipboard := some (.text t) }
              if st.callbackRegistered then .ok (st, [("text", .text t)])
              else .ok (st, [])
            else .ok (st, [])
      | none => .ok (st, [])
    else if ty = "image" ∧ st.enableImageMonitoring then
      match wlImageData receive mimeTypes with
      | some bs =>
        if bs ≠ [] ∧ some (ClipValue.image bs) ≠ st.previousClipboard then
          let st := { st with previousClipboard := some (.image bs) }
          if st.callbackRegistered ∧ st.blockImageOnce = false then
            .ok (st, [("image", .image bs)])
          else
            .ok ({ st with blockImageOnce := false }, [])
        else .ok (st, [])
      | none => .ok (st, [])
    else if ty = "files" ∧ st.enableFileMonitoring then
      match receive "text/uri-list" with
      | some bs =>
        if bs = [] then .ok (st, [])
        else
          match decode bs with
          | none => .error .unicodeDecodeError
          | some s =>
            let files := splitStripLines s
            if files ≠ [] ∧ some (ClipValue.files files) ≠ st.previousClipboard then
              let st := { st with previousClipboard := some (.files files) }
              if st.callbackRegistered then .ok (st, [("files", .files files)])
              else .ok (st, [])
            else .ok (st, [])
      | none => .ok (st, [])
    else .ok (st, [])

/-- The protocol-side resources held by `_WaylandClipboardMonitor`,
identified by opaque handles, plus the `running` flag. -/
structure WlResources where
  running : Bool
  currentOffer : Option Nat
  dataDevice : Option Nat
  dataControlManager : Option Nat
  display : Option Nat
deriving DecidableEq

/-- `_WaylandClipboardMonitor.stop`, source lines 193-218.  Each held
resource is destroyed inside `try/except Exception: pass` and its
reference cleared; `fails h = true` means destroying handle `h` raises.
Returns the new resource state and the teardown attempts actually made,
in order, as `(resource name, handle, destroy succeeded)`. -/
def wlMonitorStop (fails : Nat → Bool) (res : WlResources) :
    WlResources × List (String × Nat × Bool) :=
  let res := { res with running := false }
  let (res, a1) :=
    match res.currentOffer with
    | some h => ({ res with currentOffer := none }, [("current_offer", h, !(fails h))])
    | none => (res, [])
  let (res, a2) :=
    match res.dataDevice with
    | some h => ({ res with dataDevice := none }, [("data_device", h, !(fails h))])
    | none => (res, [])
  let (res, a3) :=
    match res.dataControlManager with
    | some h =>
        ({ res with dataControlManager := none }, [("data_control_manager", h, !(fails h))])
    | none => (res, [])
  let (res, a4) :=
    match res.display with
    | some h => ({ res with display := none }, [("display_disconnect", h, !(fails h))])
    | none => (res, [])
  (res, a1 ++ a2 ++ a3 ++ a4)

/-! ## GTK event-bound listener (`_on_clipboard_changed`) -/

/-- The toolkit clipboard object's synchronous queries, as seen at one
owner-change event.  `waitForImage` returns the pixbuf's
`save_to_bufferv("png")` outcome `(success, buffer)` when a pixbuf is
present. -/
structure GdkClipboard where
  waitForUris : Option (List String)
  waitForText : Option String
  waitForImage : Option (Bool × List Nat)

/-- Image section of `_on_clipboard_changed`, source lines 244-257.
Returns `(new _block_image_once, events, error log lines)`. -/
def gdkImageSection (clip : GdkClipboard) (enableImage cb flag : Bool) :
    Bool × List ClipEvent × List String :=
  if enableImage then
    match clip.waitForImage with
    | some pixbuf =>
        if flag then (false, [], [])
        else if cb then
          match pixbuf with
          | (true, buffer) => (flag, [("image", .image buffer)], [])
          | (false, _) => (flag, [], ["Failed to convert image(pixbuf) to buffer"])
        else (flag, [], [])
    | none => (flag, [], [])
  else (flag, [], [])

/-- Text section of `_on_clipboard_changed`, source lines 237-242,
falling through to the image section when the text is `None` or empty. -/
def gdkTextSection (clip : GdkClipboard) (enableImage cb flag : Bool) :
    Bool × List ClipEvent × List String :=
  match clip.waitForText with
  | some t =>
      if t.length > 0 then (flag, (if cb then [("text", .text t)] else []), [])
      else gdkImageSection clip enableImage cb flag
  | none => gdkImageSection clip enableImage cb flag

/-- `_on_clipboard_changed`, source lines 224-257: files first (when
enabled and non-empty URI list), then text, then image.  `cb` is
whether `_callback_update` is set and `flag` is `_block_image_once`. -/
def onClipboardChanged (clip : GdkClipboard) (enableImage enableFiles cb flag : Bool) :
    Bool × List ClipEvent × List String :=
  if enableFiles then
    match clip.waitForUris with
    | some uris =>
        if uris.length > 0 then (flag, (if cb then [("files", .files uris)] else []), [])
        else gdkTextSection clip enableImage cb flag
    | none => gdkTextSection clip enableImage cb flag
  else gdkTextSection clip enableImage cb flag

/-! ## Polling executor (`_monitor_x_wl_clipboard`) -/

/-- Case-insensitive search for the first ignore pattern
`r"target .+ not available"`: after a literal `"target "` there must be
at least one character (none of them a newline, which `.` does not
match) followed by the literal `" not available"`.  This scans for the
continuation after the `"target "` prefix. -/
def searchNotAvailable : List Char → Bool
  | [] => false
  | c :: rest =>
      if c = '\n' then false
      else (" not available".toList.isPrefixOf rest) || searchNotAvailable rest

/-- `re.search(r"target .+ not available", s)` viewed as a Boolean on
the character list: some suffix starts with `"target "` and
`searchNotAvailable` succeeds on the remainder. -/
def searchTargetPattern : List Char → Bool
  | [] => false
  | c :: rest =>
      (("target ".toList.isPrefixOf (c :: rest)) && searchNotAvailable ((c :: rest).drop 7))
      || searchTargetPattern rest

/-- Substring test used for the second, literal ignore pattern. -/
def hasSubstring (p : List Char) : List Char → Bool
  | [] => p.isEmpty
  | c :: rest => p.isPrefixOf (c :: rest) || hasSubstring p rest

/-- The `ignore_patterns` check of `_monitor_x_wl_clipboard`, source
lines 268-271 and 315-318:
`any(re.search(pattern, error_msg.lower()) for pattern in ignore_patterns)`. -/
def matchesIgnorePatterns (errorMsg : String) : Bool :=
  let low := (pyLower errorMsg).toList
  searchTargetPattern low ||
    hasSubstring ("no suitable type of content copied".toList) low

/-- One iteration's view of the external CLI tool: each field is the
`execute_command` result for the corresponding invocation
(`.ok` stdout bytes on exit code 0, `.error` the decoded stderr text
otherwise). -/
structure PollEnv where
  mimeFetch : Except String (List Nat)
  textFetch : Except String (List Nat)
  imageFetch : Except String (List Nat)
  filesFetch : Except String (List Nat)

/-- The loop-carried state of `_monitor_x_wl_clipboard`: the locals
`last_error` and `previous_clipboard`, plus the module globals
`_block_image_once` and whether `_callback_update` is set. -/
structure PollState where
  lastError : Option String
  previousClipboard : Option ClipValue
  blockImageOnce : Bool
  callbackRegistered : Bool
deriving DecidableEq

/-- Error bookkeeping shared by the three payload branches (source
lines 312-320, 342-350, 375-383): log the message only when it differs
from the previous one and matches no ignore pattern; always remember it
as `last_error`. -/
def pollPayloadError (errorMsg : String) (st : PollState) : PollState × List String :=
  if some errorMsg ≠ st.lastError then
    ({ st with lastError := some errorMsg },
     if matchesIgnorePatterns errorMsg then [] else [errorMsg])
  else (st, [])

/-- One iteration of the `while _run_poll.is_set()` body of
`_monitor_x_wl_clipboard`, source lines 278-385.  Both the xclip and the
wl-clipboard mode run this same body; only the external commands and the
sleep interval differ, which the `PollEnv` abstraction absorbs.
Returns the new state, the callback invocations, and the error-log
lines written. -/
def pollStep (decode : List Nat → Option String)
    (enableImage enableFiles : Bool) (env : PollEnv) (st : PollState) :
    Except PyExn (PollState × List ClipEvent × List String) :=
  match env.mimeFetch with
  | .error err =>
      let errorMsg := "Failed to retrieve MIME types: " ++ err
      if some errorMsg ≠ st.lastError then
        .ok ({ st with lastError := some errorMsg }, [], [errorMsg])
      else .ok (st, [], [])
  | .ok mimeBytes =>
      match decode mimeBytes with
      | none => .error .unicodeDecodeError
      | some mimeStr =>
          let mimeList := splitStripLines mimeStr
          let ty := convert_mime_to_generic_type mimeList
          if ty = "text" then
            match env.textFetch with
            | .ok bs =>
                match decode bs with
                | none => .error .unicodeDecodeError
                | some text =>
                    if text.length > 0 ∧ some (ClipValue.text text) ≠ st.previousClipboard then
                      let st := { st with previousClipboard := some (.text text) }
                      if st.callbackRegistered then .ok (st, [("text", .text text)], [])
                      else .ok (st, [], [])
                    else .ok (st, [], [])
            | .error err =>
                let (st, logs) :=
                  pollPayloadError ("Failed to retrieve text content from clipboard. " ++ err) st
                .ok (st, [], logs)
          else if ty = "image" ∧ enableImage then
            match env.imageFetch with
            | .ok bs =>
                if some (ClipValue.image bs) ≠ st.previousClipboard then
                  let st := { st with previousClipboard := some (.image bs) }
                  if st.callbackRegistered ∧ st.blockImageOnce = false then
                    .ok (st, [("image", .image bs)], [])
                  else .ok ({ st with blockImageOnce := false }, [], [])
                else .ok (st, [], [])
            | .error err =>
                let (st, logs) :=
                  pollPayloadError ("Failed to retrieve image content from clipboard. " ++ err) st
                .ok (st, [], logs)
          else if ty = "files" ∧ enableFiles then
            match env.filesFetch with
            | .ok bs =>
                match decode bs with
                | none => .error .unicodeDecodeError
                | some filesStr =>
                    let files := splitStripLines filesStr
                    if some (ClipValue.files files) ≠ st.previousClipboard then
                      let st := { st with previousClipboard := some (.files files) }
                      if st.callbackRegistered then .ok (st, [("files", .files files)], [])
                      else .ok (st, [], [])
                    else .ok (st, [], [])
            | .error err =>
                let (st, logs) :=
                  pollPayloadError ("Failed to retrieve files content from clipboard. " ++ err) st
                .ok (st, [], logs)
          else .ok (st, [], [])

/-! ## Dispatcher / lifecycle (`_runner`, `_start`, `stop`, `on_update`) -/

/-- The three observation strategies. -/
inductive Strategy where
  | protocolClient
  | eventListener
  | polling
deriving DecidableEq

/-- `_runner`, source lines 458-500, reduced to the strategy it settles
on.  `extDataControlSupport` is the `EXT_DATA_CONTROL_SUPPORT` constant;
`waylandStartOk` is what `_wayland_monitor.start()` returns (it returns
`False` both when a protocol global is missing and when starting
raises); `giOk` is whether importing the `gi` toolkit bindings
succeeds; `displayBackendX11` is the `"x11" in str(type(...))` check
(`none` models that check itself raising, caught by the same
`except`). -/
def runner (extDataControlSupport waylandStartOk giOk : Bool)
    (displayBackendX11 : Option Bool) : Strategy :=
  if extDataControlSupport && waylandStartOk then .protocolClient
  else if giOk then
    match displayBackendX11 with
    | some true => .eventListener
    | _ => .polling
  else .polling

/-- The module-level mutable state of the dispatcher:
`_callback_update` (abstracted to an identifying tag), whether
`_clipboard_thread` exists, `_block_image_once`, `_is_gdk_running`,
`_run_poll`, whether `_wayland_monitor` is set, and the
enable-image/enable-files arguments the running worker thread was
started with. -/
structure DispatcherState where
  callbackUpdate : Option Nat
  clipboardThread : Bool
  blockImageOnce : Bool
  isGdkRunning : Bool
  runPoll : Bool
  waylandMonitor : Bool
  sessionFlags : Option (Bool × Bool)
deriving DecidableEq

/-- The module-level initial values, source lines 22-28. -/
def initialState : DispatcherState :=
  { callbackUpdate := none, clipboardThread := false, blockImageOnce := false,
    isGdkRunning := false, runPoll := false, waylandMonitor := false,
    sessionFlags := none }

/-- `enable_block_image_once`, source lines 548-550. -/
def enable_block_image_once (st : DispatcherState) : DispatcherState :=
  { st with blockImageOnce := true }

/-- `_start`, source lines 503-511: create and start the worker thread
only when `_clipboard_thread` is not already set; the thread captures
the enable flags it was started with. -/
def monitorStart (enableImage enableFiles : Bool) (st : DispatcherState) :
    DispatcherState :=
  if st.clipboardThread then st
  else { st with clipboardThread := true, sessionFlags := some (enableImage, enableFiles) }

/-- `on_update`, source lines 553-556: unconditionally overwrite
`_callback_update`, then `_start`. -/
def on_update (callback : Nat) (enableImage enableFiles : Bool) (st : DispatcherState) :
    DispatcherState :=
  monitorStart enableImage enableFiles { st with callbackUpdate := some callback }

/-- `stop`, source lines 514-539.  The returned `Bool` records whether
the call joined the worker thread (i.e. blocked on it). -/
def stop (st : DispatcherState) : DispatcherState × Bool :=
  if st.clipboardThread then
    let st :=
      if st.waylandMonitor then { st with waylandMonitor := false }
      else if st.isGdkRunning then { st with isGdkRunning := false }
      else st
    ({ st with runPoll := false, clipboardThread := false,
               callbackUpdate := none, blockImageOnce := false }, true)
  else (st, false)

/-- `wait`, source lines 542-545: joins only when a worker exists. -/
def waitJoins (st : DispatcherState) : Bool :=
  st.clipboardThread

/-- ASCII-only UTF-8 decoder: a concrete instance of the `decode`
parameter used by the witnesses (a byte ≥ 128 alone is invalid
UTF-8). -/
def asciiDecode (bs : List Nat) : Option String :=
  if bs.all (fun b => b < 128) then some (String.mk (bs.map Char.ofNat)) else none

/-- ASCII encoding of a string into bytes, used to build concrete
inputs. -/
def asciiEncode (s : String) : List Nat :=
  s.toList.map Char.toNat

/-- C5: for every list of MIME-type strings, classification follows the
fixed precedence with first match winning: `text/uri-list` present gives
Files regardless of other entries; otherwise an entry starting with
`image/` gives Image; otherwise intersecting the plain-text alias list
gives Text; otherwise (including the empty list) Unknown. -/
theorem c5_classifier_precedence (l : List String) :
    ("text/uri-list" ∈ l → convert_mime_to_generic_type l = "files")
  ∧ ("text/uri-list" ∉ l → (∃ m ∈ l, pyStartsWith m "image/" = true) →
        convert_mime_to_generic_type l = "image")
  ∧ ("text/uri-list" ∉ l → (¬ ∃ m ∈ l, pyStartsWith m "image/" = true) →
        (∃ t ∈ text_mime, t ∈ l) → convert_mime_to_generic_type l = "text")
  ∧ ("text/uri-list" ∉ l → (¬ ∃ m ∈ l, pyStartsWith m "image/" = true) →
        (¬ ∃ t ∈ text_mime, t ∈ l) → convert_mime_to_generic_type l = "unknown")
  ∧ convert_mime_to_generic_type ["STRING"] = "text"
  ∧ convert_mime_to_generic_type [] = "unknown" := by
  refine ⟨?_, ?_, ?_, ?_, by decide, by decide⟩
  · intro h
    simp [convert_mime_to_generic_type, h]
  · intro h him
    simp only [convert_mime_to_generic_type, if_neg h]
    rw [if_pos]
    simp only [List.any_eq_true]
    exact him
  · intro h him ht
    simp only [convert_mime_to_generic_type, if_neg h]
    rw [if_neg, if_pos]
    · simp only [List.any_eq_true]
      obtain ⟨t, ht1, ht2⟩ := ht
      exact ⟨t, ht1, by simpa using ht2⟩
    · simp only [List.any_eq_true]
      exact him
  · intro h him ht
    simp only [convert_mime_to_generic_type, if_neg h]
    rw [if_neg, if_neg]
    · simp only [List.any_eq_true]
      intro ⟨t, ht1, ht2⟩
      exact ht ⟨t, ht1, by simpa using ht2⟩
    · simp only [List.any_eq_true]
      exact him

/-- C5 witness: concrete instantiation at `["image/png"]`. -/
theorem c5_witness :
    ("text/uri-list" ∉ (["image/png"] : List String))
  ∧ convert_mime_to_generic_type ["image/png"] = "image" :=
  ⟨by decide, (c5_classifier_precedence ["image/png"]).2.1 (by decide) (by decide)⟩

/-- C6: on start the worker tries the strategies in the fixed fallback
order Protocol Client, then Event-Bound Listener, then Polling
Executor: when the protocol path is unavailable the runner attempts the
windowing-backend check next and settles on the Event-Bound Listener
when that check succeeds, and falls through to the Polling Executor
exactly when the toolkit import fails or the backend check fails or
throws; the runner settles on exactly one strategy. -/
theorem c6_fallback_order :
    (∀ giOk d, runner true true giOk d = .protocolClient)
  ∧ (∀ ext ws, (ext && ws) = false → runner ext ws true (some true) = .eventListener)
  ∧ (∀ ext ws d, (ext && ws) = false → runner ext ws false d = .polling)
  ∧ (∀ ext ws giOk d, (ext && ws) = false → d ≠ some true →
        runner ext ws giOk d = .polling) := by
  refine ⟨?_, ?_, ?_, ?_⟩
  · intro giOk d
    simp [runner]
  · intro ext ws h
    cases ext <;> cases ws <;> simp_all [runner]
  · intro ext ws d h
    cases ext <;> cases ws <;> simp_all [runner]
  · intro ext ws giOk d h hd
    cases ext <;> cases ws <;> cases giOk <;>
      rcases d with _ | (_ | _) <;> simp_all [runner]

/-- C6 witness: Protocol Client unavailable but backend check succeeds
yields the Event-Bound Listener, not polling. -/
theorem c6_witness :
    ((true && false) = false)
  ∧ runner true false true (some true) = Strategy.eventListener :=
  ⟨rfl, c6_fallback_order.2.1 true false rfl⟩

/-- C3 counterexample: with the monitor already running and callback 1
registered, `on_update` with callback 2 replaces the registered
callback (the claim says the existing session keeps its original
callback). -/
theorem c3_counterexample :
    (on_update 2 true true
      { callbackUpdate := some 1, clipboardThread := true, blockImageOnce := false,
        isGdkRunning := false, runPoll := true, waylandMonitor := false,
        sessionFlags := some (false, false) }).callbackUpdate = some 2
  ∧ (some 2 : Option Nat) ≠ some 1 := by decide

/-- C3 amended: calling `on_update` while the monitor is running starts
no second worker thread and the session keeps its original
enable-image/enable-files flags, but the registered callback is
replaced by the newly supplied one (it is not kept). -/
theorem c3_on_update_while_running (st : DispatcherState) (cb : Nat)
    (ei ef : Bool) (h : st.clipboardThread = true) :
    on_update cb ei ef st = { st with callbackUpdate := some cb } := by
  simp [on_update, monitorStart, h]

/-- C3 witness: concrete running state. -/
theorem c3_witness :
    (({ callbackUpdate := some 1, clipboardThread := true, blockImageOnce := false,
        isGdkRunning := false, runPoll := true, waylandMonitor := false,
        sessionFlags := some (true, false) } : DispatcherState).clipboardThread = true)
  ∧ on_update 7 false true
      { callbackUpdate := some 1, clipboardThread := true, blockImageOnce := false,
        isGdkRunning := false, runPoll := true, waylandMonitor := false,
        sessionFlags := some (true, false) } =
      { callbackUpdate := some 7, clipboardThread := true, blockImageOnce := false,
        isGdkRunning := false, runPoll := true, waylandMonitor := false,
        sessionFlags := some (true, false) } :=
  ⟨rfl, c3_on_update_while_running _ 7 false true rfl⟩

/-- C7: `stop()` with no worker thread (in particular in the initial
module state, before any `on_update`) is a no-op that does not join;
`stop()` while running clears the Wayland-monitor reference, clears the
running flag, joins the worker, and clears both the registered callback
and the one-shot image-suppression flag, so the session left behind has
no callback and no pending suppression. -/
theorem c7_stop_lifecycle (st : DispatcherState) :
    (st.clipboardThread = false → stop st = (st, false))
  ∧ (st.clipboardThread = true →
        (stop st).1.runPoll = false
      ∧ (stop st).1.clipboardThread = false
      ∧ (stop st).1.callbackUpdate = none
      ∧ (stop st).1.blockImageOnce = false
      ∧ (stop st).1.waylandMonitor = false
      ∧ (st.waylandMonitor = false → (stop st).1.isGdkRunning = false)
      ∧ (stop st).2 = true)
  ∧ stop initialState = (initialState, false) := by
  obtain ⟨cb, th, bi, gdk, rp, wm, sf⟩ := st
  refine ⟨?_, ?_, by decide⟩
  · intro h
    simp only at h
    subst h
    simp [stop]
  · intro h
    simp only at h
    subst h
    cases wm <;> cases gdk <;> simp [stop]

/-- C7 witness: a running polling-mode state. -/
theorem c7_witness :
    (({ callbackUpdate := some 3, clipboardThread := true, blockImageOnce := true,
        isGdkRunning := false, runPoll := true, waylandMonitor := false,
        sessionFlags := some (true, true) } : DispatcherState).clipboardThread = true)
  ∧ (stop ({ callbackUpdate := some 3, clipboardThread := true, blockImageOnce := true,
             isGdkRunning := false, runPoll := true, waylandMonitor := false,
             sessionFlags := some (true, true) } : DispatcherState)).1.callbackUpdate = none :=
  ⟨rfl, ((c7_stop_lifecycle _).2.1 rfl).2.2.1⟩

/-- C9: the Wayland monitor's `stop()` attempts teardown of exactly the
held resources, in the fixed order current offer, data device,
data-control manager binding, display disconnect; a destroy failure
does not prevent the remaining attempts, every reference is cleared,
and both the final state and the sequence of attempted resources are
independent of which destroys fail. -/
theorem c9_teardown_best_effort (fails : Nat → Bool) (res : WlResources) :
    (wlMonitorStop fails res).1 =
      { running := false, currentOffer := none, dataDevice := none,
        dataControlManager := none, display := none }
  ∧ ((wlMonitorStop fails res).2.map (fun a => a.1)) =
      ((if res.currentOffer.isSome then ["current_offer"] else [])
        ++ (if res.dataDevice.isSome then ["data_device"] else [])
        ++ (if res.dataControlManager.isSome then ["data_control_manager"] else [])
        ++ (if res.display.isSome then ["display_disconnect"] else []))
  ∧ ((wlMonitorStop fails res).2.map (fun a => a.1)) =
      ((wlMonitorStop (fun _ => false) res).2.map (fun a => a.1))
  ∧ (wlMonitorStop fails res).1 = (wlMonitorStop (fun _ => false) res).1 := by
  obtain ⟨r, o, dd, m, disp⟩ := res
  cases o <;> cases dd <;> cases m <;> cases disp <;>
    simp [wlMonitorStop]

/-- C8: in the Protocol Client, a finalized Text selection requests the
payload as `text/plain;charset=utf-8` first and `text/plain` second
(the second is consulted only when the first returned no data); the
first request that yields data is decoded as UTF-8 and delivered, and a
payload with invalid UTF-8 byte sequences surfaces as a delivery error
(an uncaught `UnicodeDecodeError`) rather than being silently
dropped. -/
theorem c8_text_mime_preference (decode : List Nat → Option String)
    (receive : String → Option (List Nat)) (o : Nat) (m : List String) (st : WlState)
    (hty : convert_mime_to_generic_type m = "text") :
    (∀ bs, receive "text/plain;charset=utf-8" = some bs → bs ≠ [] → decode bs = none →
        handleSelection decode receive (some o) m st = .error .unicodeDecodeError)
  ∧ (∀ bs, receive "text/plain;charset=utf-8" = none → receive "text/plain" = some bs →
        bs ≠ [] → decode bs = none →
        handleSelection decode receive (some o) m st = .error .unicodeDecodeError)
  ∧ (∀ bs t, receive "text/plain;charset=utf-8" = some bs → bs ≠ [] →
        decode bs = some t → t ≠ "" →
        some (ClipValue.text t) ≠ st.previousClipboard → st.callbackRegistered = true →
        handleSelection decode receive (some o) m st =
          .ok ({ st with currentOffer := some o, previousClipboard := some (.text t) },
               [("text", ClipValue.text t)]))
  ∧ (∀ bs t, receive "text/plain;charset=utf-8" = none → receive "text/plain" = some bs →
        bs ≠ [] → decode bs = some t → t ≠ "" →
        some (ClipValue.text t) ≠ st.previousClipboard → st.callbackRegistered = true →
        handleSelection decode receive (some o) m st =
          .ok ({ st with currentOffer := some o, previousClipboard := some (.text t) },
               [("text", ClipValue.text t)])) := by
  refine ⟨?_, ?_, ?_, ?_⟩
  · intro bs h1 h2 h3
    simp [handleSelection, wlTextData, hty, h1, h2, h3, Option.orElse]
  · intro bs h1 h1b h2 h3
    simp [handleSelection, wlTextData, hty, h1, h1b, h2, h3, Option.orElse]
  · intro bs t h1 h2 h3 h4 h5 h6
    simp [handleSelection, wlTextData, hty, h1, h2, h3, h4, h5, h6, Option.orElse]
  · intro bs t h1 h1b h2 h3 h4 h5 h6
    simp [handleSelection, wlTextData, hty, h1, h1b, h2, h3, h4, h5, h6, Option.orElse]

/-- C8 witness: `["STRING"]` classifies as text; with data offered only
under `text/plain;charset=utf-8`, the payload is delivered decoded. -/
theorem c8_witness :
    convert_mime_to_generic_type ["STRING"] = "text"
  ∧ handleSelection asciiDecode
      (fun mt => if mt = "text/plain;charset=utf-8" then some (asciiEncode "a") else none)
      (some 1) ["STRING"]
      { enableImageMonitoring := false, enableFileMonitoring := false,
        currentOffer := none, previousClipboard := none,
        blockImageOnce := false, callbackRegistered := true } =
      .ok ({ enableImageMonitoring := false, enableFileMonitoring := false,
             currentOffer := some 1, previousClipboard := some (.text "a"),
             blockImageOnce := false, callbackRegistered := true },
           [("text", ClipValue.text "a")]) :=
  ⟨by decide,
   (c8_text_mime_preference asciiDecode
      (fun mt => if mt = "text/plain;charset=utf-8" then some (asciiEncode "a") else none)
      1 ["STRING"] _ (by decide)).2.2.1 (asciiEncode "a") "a"
      (by decide) (by decide) (by decide) (by decide) (by decide) (by decide)⟩

/-- C2: `enable_block_image_once()` sets the one-shot flag; with the
flag set, the next Image delivery that would otherwise occur (new
non-empty image payload, image monitoring enabled) is suppressed in
every strategy — no callback invocation, flag cleared — exactly once:
with the flag clear again the same would-be delivery goes through; Text
and Files deliveries are never suppressed by the flag (they are emitted
with the flag left untouched, whatever its value). -/
theorem c2_block_image_once_one_shot :
    (∀ st : DispatcherState, (enable_block_image_once st).blockImageOnce = true)
  ∧ (∀ decode receive (o : Nat) m st bs,
        convert_mime_to_generic_type m = "image" → st.enableImageMonitoring = true →
        wlImageData receive m = some bs → bs ≠ [] →
        some (ClipValue.image bs) ≠ st.previousClipboard → st.blockImageOnce = true →
        handleSelection decode receive (some o) m st =
          .ok ({ st with currentOffer := some o, previousClipboard := some (.image bs),
                         blockImageOnce := false }, []))
  ∧ (∀ decode receive (o : Nat) m st bs,
        convert_mime_to_generic_type m = "image" → st.enableImageMonitoring = true →
        wlImageData receive m = some bs → bs ≠ [] →
        some (ClipValue.image bs) ≠ st.previousClipboard → st.blockImageOnce = false →
        st.callbackRegistered = true →
        handleSelection decode receive (some o) m st =
          .ok ({ st with currentOffer := some o, previousClipboard := some (.image bs) },
               [("image", ClipValue.image bs)]))
  ∧ (∀ decode receive (o : Nat) m st bs t,
        convert_mime_to_generic_type m = "text" → wlTextData receive = some bs →
        bs ≠ [] → decode bs = some t → t ≠ "" →
        some (ClipValue.text t) ≠ st.previousClipboard → st.callbackRegistered = true →
        handleSelection decode receive (some o) m st =
          .ok ({ st with currentOffer := some o, previousClipboard := some (.text t) },
               [("text", ClipValue.text t)]))
  ∧ (∀ decode receive (o : Nat) m st bs fs,
        convert_mime_to_generic_type m = "files" → st.enableFileMonitoring = true →
        receive "text/uri-list" = some bs → bs ≠ [] → decode bs = some fs →
        splitStripLines fs ≠ [] →
        some (ClipValue.files (splitStripLines fs)) ≠ st.previousClipboard →
        st.callbackRegistered = true →
        handleSelection decode receive (some o) m st =
          .ok ({ st with currentOffer := some o,
                         previousClipboard := some (.files (splitStripLines fs)) },
               [("files", ClipValue.files (splitStripLines fs))]))
  ∧ (∀ decode ef env st mb ms bs,
        env.mimeFetch = .ok mb → decode mb = some ms →
        convert_mime_to_generic_type (splitStripLines ms) = "image" →
        env.imageFetch = .ok bs → some (ClipValue.image bs) ≠ st.previousClipboard →
        st.blockImageOnce = true →
        pollStep decode true ef env st =
          .ok ({ st with previousClipboard := some (.image bs),
                         blockImageOnce := false }, [], []))
  ∧ (∀ decode ef env st mb ms bs,
        env.mimeFetch = .ok mb → decode mb = some ms →
        convert_mime_to_generic_type (splitStripLines ms) = "image" →
        env.imageFetch = .ok bs → some (ClipValue.image bs) ≠ st.previousClipboard →
        st.blockImageOnce = false → st.callbackRegistered = true →
        pollStep decode true ef env st =
          .ok ({ st with previousClipboard := some (.image bs) },
               [("image", ClipValue.image bs)], []))
  ∧ (∀ decode ei ef env st mb ms bs t,
        env.mimeFetch = .ok mb → decode mb = some ms →
        convert_mime_to_generic_type (splitStripLines ms) = "text" →
        env.textFetch = .ok bs → decode bs = some t → t.length > 0 →
        some (ClipValue.text t) ≠ st.previousClipboard → st.callbackRegistered = true →
        pollStep decode ei ef env st =
          .ok ({ st with previousClipboard := some (.text t) },
               [("text", ClipValue.text t)], []))
  ∧ (∀ decode ei env st mb ms bs fs,
        env.mimeFetch = .ok mb → decode mb = some ms →
        convert_mime_to_generic_type (splitStripLines ms) = "files" →
        env.filesFetch = .ok bs → decode bs = some fs →
        some (ClipValue.files (splitStripLines fs)) ≠ st.previousClipboard →
        st.callbackRegistered = true →
        pollStep decode ei true env st =
          .ok ({ st with previousClipboard := some (.files (splitStripLines fs)) },
               [("files", ClipValue.files (splitStripLines fs))], []))
  ∧ (∀ clip ef pb cb, clip.waitForUris = none → clip.waitForText = none →
        clip.waitForImage = some pb →
        onClipboardChanged clip true ef cb true = (false, [], []))
  ∧ (∀ clip ef buf, clip.waitForUris = none → clip.waitForText = none →
        clip.waitForImage = some (true, buf) →
        onClipboardChanged clip true ef true false =
          (false, [("image", ClipValue.image buf)], []))
  ∧ (∀ clip ei t flag cb, clip.waitForText = some t → t.length > 0 →
        onClipboardChanged clip ei false cb flag =
          (flag, (if cb then [("text", ClipValue.text t)] else []), []))
  ∧ (∀ clip ei us flag cb, clip.waitForUris = some us → us.length > 0 →
        onClipboardChanged clip ei true cb flag =
          (flag, (if cb then [("files", ClipValue.files us)] else []), [])) := by
  refine ⟨fun st => rfl, ?_, ?_, ?_, ?_, ?_, ?_, ?_, ?_, ?_, ?_, ?_, ?_⟩
  · intro decode receive o m st bs h1 h2 h3 h4 h5 h6
    simp [handleSelection, h1, h2, h3, h4, h5, h6]
  · intro decode receive o m st bs h1 h2 h3 h4 h5 h6 h7
    simp [handleSelection, h1, h2, h3, h4, h5, h6, h7]
  · intro decode receive o m st bs t h1 h2 h3 h4 h5 h6 h7
    simp [handleSelection, h1, h2, h3, h4, h5, h6, h7]
  · intro decode receive o m st bs fs h1 h2 h3 h4 h5 h6 h7 h8
    simp [handleSelection, h1, h2, h3, h4, h5, h6, h7, h8]
  · intro decode ef env st mb ms bs h1 h2 h3 h4 h5 h6
    simp [pollStep, h1, h2, h3, h4, h5, h6]
  · intro decode ef env st mb ms bs h1 h2 h3 h4 h5 h6 h7
    simp [pollStep, h1, h2, h3, h4, h5, h6, h7]
  · intro decode ei ef env st mb ms bs t h1 h2 h3 h4 h5 h6 h7 h8
    simp [pollStep, h1, h2, h3, h4, h5, h6, h7, h8]
  · intro decode ei env st mb ms bs fs h1 h2 h3 h4 h5 h6 h7
    simp [pollStep, h1, h2, h3, h4, h5, h6, h7]
  · intro clip ef pb cb h1 h2 h3
    simp [onClipboardChanged, gdkTextSection, gdkImageSection, h1, h2, h3]
  · intro clip ef buf h1 h2 h3
    simp [onClipboardChanged, gdkTextSection, gdkImageSection, h1, h2, h3]
  · intro clip ei t flag cb h1 h2
    simp [onClipboardChanged, gdkTextSection, h1, h2]
  · intro clip ei us flag cb h1 h2
    simp [onClipboardChanged, h1, h2]

/-- C2 witness: a would-be Image delivery with the flag set is
suppressed in the Protocol Client. -/
theorem c2_witness :
    convert_mime_to_generic_type ["image/png"] = "image"
  ∧ handleSelection asciiDecode
      (fun mt => if mt = "image/png" then some [1, 2] else none)
      (some 1) ["image/png"]
      { enableImageMonitoring := true, enableFileMonitoring := false,
        currentOffer := none, previousClipboard := none,
        blockImageOnce := true, callbackRegistered := true } =
      .ok ({ enableImageMonitoring := true, enableFileMonitoring := false,
             currentOffer := some 1, previousClipboard := some (.image [1, 2]),
             blockImageOnce := false, callbackRegistered := true }, []) :=
  ⟨by decide,
   c2_block_image_once_one_shot.2.1 asciiDecode
      (fun mt => if mt = "image/png" then some [1, 2] else none) 1 ["image/png"] _ [1, 2]
      (by decide) (by decide) (by decide) (by decide) (by decide) (by decide)⟩

/-- C10: in the Protocol Client and Polling Executor image paths, a
suppressed Image delivery still overwrites the session's last-delivered
value with the suppressed image bytes before the suppression check, so
delivering the identical image again immediately afterwards is
deduplicated (no callback invocation); the flag is consumed whether or
not a callback is registered (no hypothesis on `callbackRegistered`). -/
theorem c10_suppressed_image_overwrites :
    (∀ decode receive (o o2 : Nat) m st bs,
        convert_mime_to_generic_type m = "image" → st.enableImageMonitoring = true →
        wlImageData receive m = some bs → bs ≠ [] →
        some (ClipValue.image bs) ≠ st.previousClipboard → st.blockImageOnce = true →
        handleSelection decode receive (some o) m st =
          .ok ({ st with currentOffer := some o, previousClipboard := some (.image bs),
                         blockImageOnce := false }, [])
        ∧ handleSelection decode receive (some o2) m
            { st with currentOffer := some o, previousClipboard := some (.image bs),
                      blockImageOnce := false } =
          .ok ({ st with currentOffer := some o2, previousClipboard := some (.image bs),
                         blockImageOnce := false }, []))
  ∧ (∀ decode ef env st mb ms bs,
        env.mimeFetch = .ok mb → decode mb = some ms →
        convert_mime_to_generic_type (splitStripLines ms) = "image" →
        env.imageFetch = .ok bs → some (ClipValue.image bs) ≠ st.previousClipboard →
        st.blockImageOnce = true →
        pollStep decode true ef env st =
          .ok ({ st with previousClipboard := some (.image bs),
                         blockImageOnce := false }, [], [])
        ∧ pollStep decode true ef env
            { st with previousClipboard := some (.image bs), blockImageOnce := false } =
          .ok ({ st with previousClipboard := some (.image bs),
                         blockImageOnce := false }, [], [])) := by
  constructor
  · intro decode receive o o2 m st bs h1 h2 h3 h4 h5 h6
    constructor
    · simp [handleSelection, h1, h2, h3, h4, h5, h6]
    · simp [handleSelection, h1, h2, h3, h4]
  · intro decode ef env st mb ms bs h1 h2 h3 h4 h5 h6
    constructor
    · simp [pollStep, h1, h2, h3, h4, h5, h6]
    · simp [pollStep, h1, h2, h3, h4]

/-- C10 witness: suppressed image delivery with no callback registered
still overwrites the dedup state, and the identical image immediately
afterwards is deduplicated. -/
theorem c10_witness :
    convert_mime_to_generic_type ["image/png"] = "image"
  ∧ (handleSelection asciiDecode
        (fun mt => if mt = "image/png" then some [9] else none)
        (some 1) ["image/png"]
        { enableImageMonitoring := true, enableFileMonitoring := false,
          currentOffer := none, previousClipboard := none,
          blockImageOnce := true, callbackRegistered := false } =
        .ok ({ enableImageMonitoring := true, enableFileMonitoring := false,
               currentOffer := some 1, previousClipboard := some (.image [9]),
               blockImageOnce := false, callbackRegistered := false }, [])
      ∧ handleSelection asciiDecode
          (fun mt => if mt = "image/png" then some [9] else none)
          (some 2) ["image/png"]
          { enableImageMonitoring := true, enableFileMonitoring := false,
            currentOffer := some 1, previousClipboard := some (.image [9]),
            blockImageOnce := false, callbackRegistered := false } =
        .ok ({ enableImageMonitoring := true, enableFileMonitoring := false,
               currentOffer := some 2, previousClipboard := some (.image [9]),
               blockImageOnce := false, callbackRegistered := false }, [])) :=
  ⟨by decide,
   c10_suppressed_image_overwrites.1 asciiDecode
      (fun mt => if mt = "image/png" then some [9] else none) 1 2 ["image/png"]
      { enableImageMonitoring := true, enableFileMonitoring := false,
        currentOffer := none, previousClipboard := none,
        blockImageOnce := true, callbackRegistered := false } [9]
      (by decide) (by decide) (by decide) (by decide) (by decide) (by decide)⟩

/-- C4 counterexample: a text-fetch failure whose message matches the
benign pattern `target .+ not available` is indeed never written to the
error log (no log lines), but the value-dedup state is NOT reset: the
post-state keeps `previous_clipboard = "hi"`, so the subsequent
successful read of the same value `"hi"` produces no callback
invocation, contradicting the claim that it is delivered. -/
theorem c4_counterexample :
    matchesIgnorePatterns
      "Failed to retrieve text content from clipboard. Error: target STRING not available" = true
  ∧ pollStep asciiDecode false false
      { mimeFetch := .ok (asciiEncode "text/plain"),
        textFetch := .error "Error: target STRING not available",
        imageFetch := .error "e", filesFetch := .error "e" }
      { lastError := none, previousClipboard := some (.text "hi"),
        blockImageOnce := false, callbackRegistered := true } =
      .ok ({ lastError := some
               "Failed to retrieve text content from clipboard. Error: target STRING not available",
             previousClipboard := some (.text "hi"),
             blockImageOnce := false, callbackRegistered := true }, [], [])
  ∧ pollStep asciiDecode false false
      { mimeFetch := .ok (asciiEncode "text/plain"),
        textFetch := .ok (asciiEncode "hi"),
        imageFetch := .error "e", filesFetch := .error "e" }
      { lastError := some
          "Failed to retrieve text content from clipboard. Error: target STRING not available",
        previousClipboard := some (.text "hi"),
        blockImageOnce := false, callbackRegistered := true } =
      .ok ({ lastError := some
               "Failed to retrieve text content from clipboard. Error: target STRING not available",
             previousClipboard := some (.text "hi"),
             blockImageOnce := false, callbackRegistered := true }, [], []) :=
  ⟨by decide, rfl, rfl⟩

/-- C4 amended: a payload-fetch failure whose error message matches a
benign ignore pattern (case-insensitive) is never written to the error
log, and `last_error` is updated to it; but the value-dedup state
(`previous_clipboard`) is NOT reset, so a subsequent successful read of
the previously delivered value is deduplicated and not delivered via
the callback. -/
theorem c4_benign_errors_unlogged :
    (∀ msg st, matchesIgnorePatterns msg = true →
        (pollPayloadError msg st).2 = []
      ∧ (pollPayloadError msg st).1.previousClipboard = st.previousClipboard
      ∧ ((pollPayloadError msg st).1.lastError = some msg
          ∨ (pollPayloadError msg st).1.lastError = st.lastError))
  ∧ (∀ decode ei ef env st mb ms err, env.mimeFetch = .ok mb → decode mb = some ms →
        convert_mime_to_generic_type (splitStripLines ms) = "text" →
        env.textFetch = .error err →
        pollStep decode ei ef env st =
          .ok ((pollPayloadError
                  ("Failed to retrieve text content from clipboard. " ++ err) st).1,
               [],
               (pollPayloadError
                  ("Failed to retrieve text content from clipboard. " ++ err) st).2))
  ∧ (∀ decode ef env st mb ms err, env.mimeFetch = .ok mb → decode mb = some ms →
        convert_mime_to_generic_type (splitStripLines ms) = "image" →
        env.imageFetch = .error err →
        pollStep decode true ef env st =
          .ok ((pollPayloadError
                  ("Failed to retrieve image content from clipboard. " ++ err) st).1,
               [],
               (pollPayloadError
                  ("Failed to retrieve image content from clipboard. " ++ err) st).2))
  ∧ (∀ decode ei env st mb ms err, env.mimeFetch = .ok mb → decode mb = some ms →
        convert_mime_to_generic_type (splitStripLines ms) = "files" →
        env.filesFetch = .error err →
        pollStep decode ei true env st =
          .ok ((pollPayloadError
                  ("Failed to retrieve files content from clipboard. " ++ err) st).1,
               [],
               (pollPayloadError
                  ("Failed to retrieve files content from clipboard. " ++ err) st).2))
  ∧ (∀ decode ei ef env st mb ms bs t, env.mimeFetch = .ok mb → decode mb = some ms →
        convert_mime_to_generic_type (splitStripLines ms) = "text" →
        env.textFetch = .ok bs → decode bs = some t →
        st.previousClipboard = some (.text t) →
        pollStep decode ei ef env st = .ok (st, [], [])) := by
  refine ⟨?_, ?_, ?_, ?_, ?_⟩
  · intro msg st hig
    unfold pollPayloadError
    split
    · simp [hig]
    · simp
  · intro decode ei ef env st mb ms err h1 h2 h3 h4
    simp [pollStep, h1, h2, h3, h4]
  · intro decode ef env st mb ms err h1 h2 h3 h4
    simp [pollStep, h1, h2, h3, h4]
  · intro decode ei env st mb ms err h1 h2 h3 h4
    simp [pollStep, h1, h2, h3, h4]
  · intro decode ei ef env st mb ms bs t h1 h2 h3 h4 h5 h6
    simp [pollStep, h1, h2, h3, h4, h5, h6]

/-- C4 witness: concrete benign text-fetch failure. -/
theorem c4_witness :
    matchesIgnorePatterns
      "Failed to retrieve text content from clipboard. no suitable type of content copied" = true
  ∧ (pollPayloadError
      "Failed to retrieve text content from clipboard. no suitable type of content copied"
      { lastError := none, previousClipboard := some (.text "x"),
        blockImageOnce := false, callbackRegistered := true }).2 = [] :=
  ⟨by decide,
   (c4_benign_errors_unlogged.1
      "Failed to retrieve text content from clipboard. no suitable type of content copied"
      { lastError := none, previousClipboard := some (.text "x"),
        blockImageOnce := false, callbackRegistered := true } (by decide)).1⟩

/-- C1 counterexample: the Event-Bound Listener session keeps no
last-delivered value, so delivering the same non-empty text twice in a
row invokes the callback both times (two invocations, not one): the
second call — with the flag threaded through from the first — emits the
same event again. -/
theorem c1_counterexample :
    (onClipboardChanged { waitForUris := none, waitForText := some "a", waitForImage := none }
        false false true false).2.1 = [("text", ClipValue.text "a")]
  ∧ (onClipboardChanged { waitForUris := none, waitForText := some "a", waitForImage := none }
        false false true
        (onClipboardChanged { waitForUris := none, waitForText := some "a", waitForImage := none }
            false false true false).1).2.1 = [("text", ClipValue.text "a")] := by
  constructor <;> rfl

/-- C1 amended: delivering the same `ClipboardValue` twice in a row
yields exactly one callback invocation in the Protocol Client session
and in the Polling Executor session (any run that invokes the callback
records the delivered value, and an immediately repeated identical run
changes nothing and invokes nothing); the Event-Bound Listener session,
however, performs no deduplication: it keeps no last-delivered value
and invokes the callback again on the identical consecutive
delivery. -/
theorem c1_dedup_per_session :
    (∀ decode receive (o o2 : Nat) m st st1 e,
        handleSelection decode receive (some o) m st = .ok (st1, [e]) →
        handleSelection decode receive (some o2) m st1 =
          .ok ({ st1 with currentOffer := some o2 }, []))
  ∧ (∀ decode ei ef env st st1 e logs,
        pollStep decode ei ef env st = .ok (st1, [e], logs) →
        pollStep decode ei ef env st1 = .ok (st1, [], []))
  ∧ (∀ clip ei t flag, clip.waitForUris = none → clip.waitForText = some t →
        t.length > 0 →
        (onClipboardChanged clip ei false true flag).2.1 = [("text", ClipValue.text t)]
      ∧ (onClipboardChanged clip ei false true
            (onClipboardChanged clip ei false true flag).1).2.1 =
          [("text", ClipValue.text t)]) := by
  refine ⟨?_, ?_, ?_⟩
  · intro decode receive o o2 m st st1 e h
    simp only [handleSelection] at h ⊢
    repeat' split at h
    all_goals simp at h
    all_goals obtain ⟨rfl, rfl⟩ := h
    all_goals simp_all
  · intro decode ei ef env st st1 e logs h
    simp only [pollStep] at h ⊢
    repeat' split at h
    all_goals simp at h
    all_goals obtain ⟨rfl, rfl, rfl⟩ := h
    all_goals simp_all
  · intro clip ei t flag h1 h2 h3
    constructor <;> simp [onClipboardChanged, gdkTextSection, h1, h2, h3]

/-- C1 witness: a Protocol Client session delivers `"a"` once; the
identical selection immediately afterwards (fresh offer handle, same
payload) is deduplicated. -/
theorem c1_witness :
    handleSelection asciiDecode
      (fun mt => if mt = "text/plain;charset=utf-8" then some (asciiEncode "a") else none)
      (some 1) ["STRING"]
      { enableImageMonitoring := false, enableFileMonitoring := false,
        currentOffer := none, previousClipboard := none,
        blockImageOnce := false, callbackRegistered := true } =
      .ok ({ enableImageMonitoring := false, enableFileMonitoring := false,
             currentOffer := some 1, previousClipboard := some (.text "a"),
             blockImageOnce := false, callbackRegistered := true },
           [("text", ClipValue.text "a")])
  ∧ handleSelection asciiDecode
      (fun mt => if mt = "text/plain;charset=utf-8" then some (asciiEncode "a") else none)
      (some 2) ["STRING"]
      { enableImageMonitoring := false, enableFileMonitoring := false,
        currentOffer := some 1, previousClipboard := some (.text "a"),
        blockImageOnce := false, callbackRegistered := true } =
      .ok ({ enableImageMonitoring := false, enableFileMonitoring := false,
             currentOffer := some 2, previousClipboard := some (.text "a"),
             blockImageOnce := false, callbackRegistered := true }, []) :=
  ⟨rfl,
   c1_dedup_per_session.1 asciiDecode
      (fun mt => if mt = "text/plain;charset=utf-8" then some (asciiEncode "a") else none)
      1 2 ["STRING"]
      { enableImageMonitoring := false, enableFileMonitoring := false,
        currentOffer := none, previousClipboard := none,
        blockImageOnce := false, callbackRegistered := true }
      { enableImageMonitoring := false, enableFileMonitoring := false,
        currentOffer := some 1, previousClipboard := some (.text "a"),
        blockImageOnce := false, callbackRegistered := true }
      ("text", ClipValue.text "a") rfl⟩

end ClipCascade
